import Mathlib

/-!
Single-body PhysX object model (ARGoS).

Shallow embedding of `CPhysXSingleBodyObjectModel`
(`plugins/simulator/physics_engines/physx/physx_single_body_object_model.cpp`).

The physics engine is an external collaborator.  Its rigid body is modelled as a
record holding exactly the pieces of engine state the model touches: the global
pose, the `eKINEMATIC` rigid-body flag, the force and torque accumulators and
the attached shapes.  Scalars are kept abstract: `R` is the scalar type of the
simulation side (`Real`), `F` the scalar type of the engine side (`PxReal`) and
`G` the type of shape geometries.
-/

namespace Argos

/-! ## Pose types -/

/-- Simulation-side vector, `CVector3`. -/
structure CVector3 (R : Type) where
  x : R
  y : R
  z : R
deriving DecidableEq, Repr

/-- Simulation-side rotation, `CQuaternion`. -/
structure CQuaternion (R : Type) where
  w : R
  x : R
  y : R
  z : R
deriving DecidableEq, Repr

/-- Engine-side vector, `physx::PxVec3`. -/
structure PxVec3 (F : Type) where
  x : F
  y : F
  z : F
deriving DecidableEq, Repr

/-- Engine-side rotation, `physx::PxQuat`. -/
structure PxQuat (F : Type) where
  x : F
  y : F
  z : F
  w : F
deriving DecidableEq, Repr

/-- Engine-side rigid transform, `physx::PxTransform` (rotation `q`, translation `p`). -/
structure PxTransform (F : Type) where
  q : PxQuat F
  p : PxVec3 F
deriving DecidableEq, Repr

/-- Origin anchor of the embodied entity, `SAnchor`: the logical pose record. -/
structure SAnchor (R : Type) where
  Position : CVector3 R
  Orientation : CQuaternion R
deriving DecidableEq, Repr

/-- The four coordinate conversion helpers used by the model.  Their bodies are
not part of the translated file, so they are taken as parameters. -/
structure CConversions (R F : Type) where
  CVector3ToPxVec3 : CVector3 R → PxVec3 F
  CQuaternionToPxQuat : CQuaternion R → PxQuat F
  PxVec3ToCVector3 : PxVec3 F → CVector3 R
  PxQuatToCQuaternion : PxQuat F → CQuaternion R

/-! ## Engine objects -/

/-- Collision shape, `physx::PxShape`: an identity (the pointer in the source)
and a geometry. -/
structure PxShape (G : Type) where
  id : Nat
  geometry : G
deriving DecidableEq, Repr

/-- Engine rigid body, `physx::PxRigidActor` / `physx::PxRigidDynamic`
(`m_pcGenericBody` and `m_pcDynamicBody` name the same object). -/
structure PxRigidActor (F G : Type) where
  globalPose : PxTransform F
  kinematic : Bool
  force : PxVec3 F
  torque : PxVec3 F
  shapes : List (PxShape G)
deriving DecidableEq, Repr

/-- Engine primitive `getGlobalPose()`. -/
def PxRigidActor.getGlobalPose {F G : Type} (b : PxRigidActor F G) : PxTransform F :=
  b.globalPose

/-- Engine primitive `setGlobalPose(pose)`. -/
def PxRigidActor.setGlobalPose {F G : Type} (b : PxRigidActor F G) (pose : PxTransform F) :
    PxRigidActor F G :=
  { b with globalPose := pose }

/-- Engine primitive `setRigidBodyFlag(PxRigidBodyFlag::eKINEMATIC, value)`. -/
def PxRigidActor.setRigidBodyFlagKinematic {F G : Type} (b : PxRigidActor F G) (value : Bool) :
    PxRigidActor F G :=
  { b with kinematic := value }

/-- Engine primitive `clearForce()`: empties the force accumulator. -/
def PxRigidActor.clearForce {F G : Type} [Zero F] (b : PxRigidActor F G) : PxRigidActor F G :=
  { b with force := ⟨0, 0, 0⟩ }

/-- Engine primitive `clearTorque()`: empties the torque accumulator. -/
def PxRigidActor.clearTorque {F G : Type} [Zero F] (b : PxRigidActor F G) : PxRigidActor F G :=
  { b with torque := ⟨0, 0, 0⟩ }

/-- Engine primitive `getShapes(buffer, n)` with `n = getNbShapes()`. -/
def PxRigidActor.getShapes {F G : Type} (b : PxRigidActor F G) : List (PxShape G) :=
  b.shapes

/-- Modelled from the spec: `CPhysXEngine::CQueryIgnoreShapes`, the per-query
exclusion filter, whose class is not in the translated file.  It is the set of
shape identities to exclude from an overlap test. -/
structure CQueryIgnoreShapes where
  m_ignored : List Nat
deriving DecidableEq, Repr

/-- Modelled from the spec: `CQueryIgnoreShapes::Ignore(shape)` adds the shape's
identity to the exclusion set. -/
def CQueryIgnoreShapes.Ignore {G : Type} (f : CQueryIgnoreShapes) (pc_shape : PxShape G) :
    CQueryIgnoreShapes :=
  ⟨pc_shape.id :: f.m_ignored⟩

/-- Modelled from the spec: the pre-filter of the exclusion set.  A shape whose
identity is in the set is dropped from the query (`false`), every other shape
is kept (`true`). -/
def CQueryIgnoreShapes.preFilter {G : Type} (f : CQueryIgnoreShapes) (pc_shape : PxShape G) :
    Bool :=
  !(f.m_ignored.contains pc_shape.id)

/-- The engine world seen by the model: the ground shape (`GetGroundShape()`),
the shapes of all the other actors of the scene with their world poses, and the
engine's geometric intersection test between a query geometry at a pose and a
scene shape at its pose. -/
structure CPhysXEngine (F G : Type) where
  groundShape : PxShape G
  groundPose : PxTransform F
  otherShapes : List (PxShape G × PxTransform F)
  intersects : G → PxTransform F → PxShape G → PxTransform F → Bool

/-- The model: dynamic flag cache, bound body and the origin anchor of the
embodied entity.  A value of this type is a model after `SetBody`. -/
structure CPhysXSingleBodyObjectModel (R F G : Type) where
  m_bIsDynamic : Bool
  body : PxRigidActor F G
  OriginAnchor : SAnchor R
deriving DecidableEq, Repr

/-- All shapes present in the scene while the model's body is in it: the
ground, the body's own shapes at the body's pose, and the other actors' shapes. -/
def sceneShapes {R F G : Type} (eng : CPhysXEngine F G)
    (m : CPhysXSingleBodyObjectModel R F G) : List (PxShape G × PxTransform F) :=
  (eng.groundShape, eng.groundPose) ::
    (m.body.shapes.map (fun s => (s, m.body.globalPose)) ++ eng.otherShapes)

/-- Engine primitive `PxScene::overlap` with flags
`eANY_HIT | eSTATIC | eDYNAMIC | ePREFILTER`: reports whether some shape of the
scene passes the pre-filter and intersects the query geometry at the query pose. -/
def sceneOverlap {F G : Type} (eng : CPhysXEngine F G)
    (scene : List (PxShape G × PxTransform F)) (geom : G) (pose : PxTransform F)
    (filter : CQueryIgnoreShapes) : Bool :=
  scene.any (fun sp => filter.preFilter sp.1 && eng.intersects geom pose sp.1 sp.2)

/-! ## The model's operations -/

/-- Source function `CPhysXSingleBodyObjectModel::Reset`. -/
def Reset {R F G : Type} [Zero F] (cv : CConversions R F)
    (m : CPhysXSingleBodyObjectModel R F G) : CPhysXSingleBodyObjectModel R F G :=
  if !m.m_bIsDynamic then m
  else
    let cBodyTrans : PxTransform F :=
      { p := cv.CVector3ToPxVec3 m.OriginAnchor.Position,
        q := cv.CQuaternionToPxQuat m.OriginAnchor.Orientation }
    let b := m.body.setRigidBodyFlagKinematic true
    let b := b.setGlobalPose cBodyTrans
    let b := b.setRigidBodyFlagKinematic false
    let b := b.clearForce
    let b := b.clearTorque
    { m with body := b }

/-- Source function `CPhysXSingleBodyObjectModel::UpdateOriginAnchor`: the anchor handed in is
overwritten with the body's pose; the body is only read. -/
def UpdateOriginAnchor {R F G : Type} (cv : CConversions R F)
    (m : CPhysXSingleBodyObjectModel R F G) (s_anchor : SAnchor R) : SAnchor R :=
  let cBodyTrans := m.body.getGlobalPose
  { s_anchor with
    Position := cv.PxVec3ToCVector3 cBodyTrans.p,
    Orientation := cv.PxQuatToCQuaternion cBodyTrans.q }

/-- The per-step call of the registered anchor method: `SetBody` registers
`UpdateOriginAnchor` against the origin anchor, so the step driver hands the
origin anchor to it. -/
def stepUpdateOriginAnchor {R F G : Type} (cv : CConversions R F)
    (m : CPhysXSingleBodyObjectModel R F G) : CPhysXSingleBodyObjectModel R F G :=
  { m with OriginAnchor := UpdateOriginAnchor cv m m.OriginAnchor }

/-- Modelled from the spec: `CPhysXModel::UpdateEntityStatus`, the generic
update path of the base class, which is not in the translated file.  It pushes
the engine state into the simulation entity: the accepted pose is
resynchronised into the origin anchor through the registered anchor method. -/
def CPhysXModel_UpdateEntityStatus {R F G : Type} (cv : CConversions R F)
    (m : CPhysXSingleBodyObjectModel R F G) : CPhysXSingleBodyObjectModel R F G :=
  stepUpdateOriginAnchor cv m

/-- Source function `CPhysXSingleBodyObjectModel::UpdateEntityStatus`. -/
def UpdateEntityStatus {R F G : Type} (cv : CConversions R F)
    (m : CPhysXSingleBodyObjectModel R F G) : CPhysXSingleBodyObjectModel R F G :=
  if m.m_bIsDynamic then CPhysXModel_UpdateEntityStatus cv m else m

/-- The exclusion filter built by `IsCollidingWithSomething`: the ground shape
first, then each of the body's shapes in enumeration order. -/
def buildIgnoreShapes {R F G : Type} (eng : CPhysXEngine F G)
    (m : CPhysXSingleBodyObjectModel R F G) : CQueryIgnoreShapes :=
  m.body.getShapes.foldl (fun f s => f.Ignore s)
    ((CQueryIgnoreShapes.mk []).Ignore eng.groundShape)

/-- The query loop of `IsCollidingWithSomething`: one overlap query per shape,
leaving with `true` at the first hit and with `false` once all are checked. -/
def overlapLoop {F G : Type} (eng : CPhysXEngine F G)
    (scene : List (PxShape G × PxTransform F)) (cTrans : PxTransform F)
    (cIgnoreShapes : CQueryIgnoreShapes) : List (PxShape G) → Bool
  | [] => false
  | s :: rest =>
    if sceneOverlap eng scene s.geometry cTrans cIgnoreShapes then true
    else overlapLoop eng scene cTrans cIgnoreShapes rest

/-- Source function `CPhysXSingleBodyObjectModel::IsCollidingWithSomething`. -/
def IsCollidingWithSomething {R F G : Type} (eng : CPhysXEngine F G)
    (m : CPhysXSingleBodyObjectModel R F G) : Bool :=
  let cTrans := m.body.getGlobalPose
  let cIgnoreShapes := buildIgnoreShapes eng m
  overlapLoop eng (sceneShapes eng m) cTrans cIgnoreShapes m.body.getShapes

/-- Source function `CPhysXSingleBodyObjectModel::MoveTo`: the returned pair is the boolean
result and the state after the call. -/
def MoveTo {R F G : Type} (cv : CConversions R F) (eng : CPhysXEngine F G)
    (m : CPhysXSingleBodyObjectModel R F G) (c_position : CVector3 R)
    (c_orientation : CQuaternion R) (b_check_only : Bool) :
    Bool × CPhysXSingleBodyObjectModel R F G :=
  if !m.m_bIsDynamic then (false, m)
  else
    let cOldPose := m.body.getGlobalPose
    let cBodyTrans : PxTransform F :=
      { p := cv.CVector3ToPxVec3 c_position,
        q := cv.CQuaternionToPxQuat c_orientation }
    let m1 := { m with body := m.body.setRigidBodyFlagKinematic true }
    let m2 := { m1 with body := m1.body.setGlobalPose cBodyTrans }
    let bIsColliding := IsCollidingWithSomething eng m2
    let m3 :=
      if b_check_only || bIsColliding then
        { m2 with body := m2.body.setGlobalPose cOldPose }
      else
        UpdateEntityStatus cv m2
    let m4 := { m3 with body := m3.body.setRigidBodyFlagKinematic false }
    (!bIsColliding, m4)

/-- The engine transform a candidate pose `(p, o)` is converted to. -/
def candidatePose {R F : Type} (cv : CConversions R F) (c_position : CVector3 R)
    (c_orientation : CQuaternion R) : PxTransform F :=
  { p := cv.CVector3ToPxVec3 c_position, q := cv.CQuaternionToPxQuat c_orientation }

/-- The model with its body placed at a given engine pose (kinematic mode on),
which is the state the collision pre-check of `MoveTo` is run in. -/
def placedAt {R F G : Type} (m : CPhysXSingleBodyObjectModel R F G) (pose : PxTransform F) :
    CPhysXSingleBodyObjectModel R F G :=
  { m with body := (m.body.setRigidBodyFlagKinematic true).setGlobalPose pose }

/-! ## A concrete world used to evaluate the definitions

Integer coordinates on both sides, conversions that copy the components, and
spheres as geometries (the geometry is the radius). -/

/-- Component-wise copying conversions over integer scalars. -/
def demoConv : CConversions Int Int :=
  { CVector3ToPxVec3 := fun v => ⟨v.x, v.y, v.z⟩,
    CQuaternionToPxQuat := fun q => ⟨q.x, q.y, q.z, q.w⟩,
    PxVec3ToCVector3 := fun v => ⟨v.x, v.y, v.z⟩,
    PxQuatToCQuaternion := fun q => ⟨q.w, q.x, q.y, q.z⟩ }

/-- Sphere against sphere: the centres are no further apart than the sum of
the radii. -/
def demoIntersects (geom : Nat) (pose : PxTransform Int) (s : PxShape Nat)
    (spose : PxTransform Int) : Bool :=
  decide ((pose.p.x - spose.p.x) ^ 2 + (pose.p.y - spose.p.y) ^ 2 + (pose.p.z - spose.p.z) ^ 2
    ≤ ((geom : Int) + (s.geometry : Int)) ^ 2)

/-- Identity rotation on the engine side. -/
def demoPxIdentityQuat : PxQuat Int := ⟨0, 0, 0, 1⟩

/-- Identity rotation on the simulation side. -/
def demoIdentityQuat : CQuaternion Int := ⟨1, 0, 0, 0⟩

/-- A world with a very large ground shape (identity 0) around the origin and
one obstacle (identity 7, radius 1) at `x = 10`. -/
def demoEngine : CPhysXEngine Int Nat :=
  { groundShape := ⟨0, 1000⟩,
    groundPose := ⟨demoPxIdentityQuat, ⟨0, 0, 0⟩⟩,
    otherShapes := [(⟨7, 1⟩, ⟨demoPxIdentityQuat, ⟨10, 0, 0⟩⟩)],
    intersects := demoIntersects }

/-- A dynamic body with one shape (identity 1, radius 1) at the origin, left in
kinematic mode with residual force and torque; its anchor says `x = 2`. -/
def demoModel : CPhysXSingleBodyObjectModel Int Int Nat :=
  { m_bIsDynamic := true,
    body :=
      { globalPose := ⟨demoPxIdentityQuat, ⟨0, 0, 0⟩⟩,
        kinematic := true,
        force := ⟨3, 0, 0⟩,
        torque := ⟨0, 0, 2⟩,
        shapes := [⟨1, 1⟩] },
    OriginAnchor := ⟨⟨2, 0, 0⟩, demoIdentityQuat⟩ }

/-- A static body with the same content. -/
def demoStaticModel : CPhysXSingleBodyObjectModel Int Int Nat :=
  { demoModel with m_bIsDynamic := false }

/-- A free candidate position. -/
def demoFree : CVector3 Int := ⟨5, 0, 0⟩

/-- A candidate position inside the obstacle. -/
def demoBlocked : CVector3 Int := ⟨10, 0, 0⟩


/-! ## Helper lemmas -/

/-- Static bodies: `MoveTo` leaves at its first line. -/
lemma MoveTo_of_static {R F G : Type} (cv : CConversions R F) (eng : CPhysXEngine F G)
    (m : CPhysXSingleBodyObjectModel R F G) (p : CVector3 R) (o : CQuaternion R) (c : Bool)
    (hst : m.m_bIsDynamic = false) : MoveTo cv eng m p o c = (false, m) := by
  simp [MoveTo, hst]

/-- Dynamic bodies: the result and the final state of `MoveTo`, by cases on the
rollback condition. -/
lemma MoveTo_of_dynamic {R F G : Type} (cv : CConversions R F) (eng : CPhysXEngine F G)
    (m : CPhysXSingleBodyObjectModel R F G) (p : CVector3 R) (o : CQuaternion R) (c : Bool)
    (hdyn : m.m_bIsDynamic = true) :
    MoveTo cv eng m p o c =
      (!IsCollidingWithSomething eng (placedAt m (candidatePose cv p o)),
        if c || IsCollidingWithSomething eng (placedAt m (candidatePose cv p o)) then
          { m with body := m.body.setRigidBodyFlagKinematic false }
        else
          { m with
            body := (m.body.setGlobalPose (candidatePose cv p o)).setRigidBodyFlagKinematic false,
            OriginAnchor :=
              ⟨cv.PxVec3ToCVector3 (cv.CVector3ToPxVec3 p),
                cv.PxQuatToCQuaternion (cv.CQuaternionToPxQuat o)⟩ }) := by
  unfold MoveTo
  simp only [hdyn, Bool.not_true, Bool.false_eq_true, if_false]
  cases hcol : IsCollidingWithSomething eng (placedAt m (candidatePose cv p o)) <;>
    cases c <;>
    simp_all [placedAt, candidatePose, UpdateEntityStatus, CPhysXModel_UpdateEntityStatus,
      stepUpdateOriginAnchor, UpdateOriginAnchor, PxRigidActor.setGlobalPose,
      PxRigidActor.getGlobalPose, PxRigidActor.setRigidBodyFlagKinematic]


/-- The loop of `IsCollidingWithSomething` answers `true` exactly when one of
the listed shapes has a positive overlap query. -/
lemma overlapLoop_eq_true_iff {F G : Type} (eng : CPhysXEngine F G)
    (scene : List (PxShape G × PxTransform F)) (cTrans : PxTransform F)
    (flt : CQueryIgnoreShapes) (l : List (PxShape G)) :
    overlapLoop eng scene cTrans flt l = true ↔
      ∃ s ∈ l, sceneOverlap eng scene s.geometry cTrans flt = true := by
  induction l with
  | nil => simp [overlapLoop]
  | cons a rest ih =>
    unfold overlapLoop
    by_cases h : sceneOverlap eng scene a.geometry cTrans flt = true
    · simp [h]
    · simp [h, ih]

/-- Identities ignored after folding `Ignore` over a list of shapes. -/
lemma foldl_Ignore_ignored {G : Type} (l : List (PxShape G)) (f : CQueryIgnoreShapes) (n : Nat) :
    n ∈ (l.foldl (fun f s => f.Ignore s) f).m_ignored ↔
      n ∈ f.m_ignored ∨ ∃ s ∈ l, s.id = n := by
  induction l generalizing f with
  | nil => simp
  | cons a rest ih =>
    rw [List.foldl_cons, ih]
    simp only [CQueryIgnoreShapes.Ignore, List.mem_cons]
    constructor
    · rintro ((h | h) | ⟨s, hs, h⟩)
      · exact Or.inr ⟨a, Or.inl rfl, h.symm⟩
      · exact Or.inl h
      · exact Or.inr ⟨s, Or.inr hs, h⟩
    · rintro (h | ⟨s, hs | hs, h⟩)
      · exact Or.inl (Or.inr h)
      · subst hs
        exact Or.inl (Or.inl h.symm)
      · exact Or.inr ⟨s, hs, h⟩

/-- The filter built by the collision pre-check drops exactly the shapes that
carry the identity of the ground shape or of one of the body's shapes. -/
lemma buildIgnoreShapes_preFilter {R F G : Type} (eng : CPhysXEngine F G)
    (m : CPhysXSingleBodyObjectModel R F G) (t : PxShape G) :
    (buildIgnoreShapes eng m).preFilter t = false ↔
      t.id = eng.groundShape.id ∨ ∃ s ∈ m.body.getShapes, s.id = t.id := by
  unfold CQueryIgnoreShapes.preFilter buildIgnoreShapes
  rw [Bool.not_eq_false_eq_eq_true, List.elem_iff, foldl_Ignore_ignored]
  simp [CQueryIgnoreShapes.Ignore, eq_comm]

/-- After `Reset` of a dynamic body. -/
lemma Reset_of_dynamic {R F G : Type} [Zero F] (cv : CConversions R F)
    (m : CPhysXSingleBodyObjectModel R F G) (hdyn : m.m_bIsDynamic = true) :
    Reset cv m =
      { m with
        body :=
          { globalPose := candidatePose cv m.OriginAnchor.Position m.OriginAnchor.Orientation,
            kinematic := false,
            force := ⟨0, 0, 0⟩,
            torque := ⟨0, 0, 0⟩,
            shapes := m.body.shapes } } := by
  simp [Reset, hdyn, candidatePose, PxRigidActor.setGlobalPose,
    PxRigidActor.setRigidBodyFlagKinematic, PxRigidActor.clearForce, PxRigidActor.clearTorque]


/-! ## Speculative move -/

/-- C1. On a dynamic body, `MoveTo` in check-only mode leaves the observable
pose as it was, whatever the collision pre-check answers: the engine-side
global pose after the call is the pose before the call, and the origin anchor
is not written. -/
theorem MoveTo_check_only_keeps_pose {R F G : Type} (cv : CConversions R F)
    (eng : CPhysXEngine F G) (m : CPhysXSingleBodyObjectModel R F G) (p : CVector3 R)
    (o : CQuaternion R) (hdyn : m.m_bIsDynamic = true) :
    (MoveTo cv eng m p o true).2.body.getGlobalPose = m.body.getGlobalPose ∧
      (MoveTo cv eng m p o true).2.OriginAnchor = m.OriginAnchor := by
  rw [MoveTo_of_dynamic cv eng m p o true hdyn]
  simp [PxRigidActor.getGlobalPose, PxRigidActor.setRigidBodyFlagKinematic]

/-- Witness for C1: a probe of a blocked position leaves pose and anchor alone. -/
theorem MoveTo_check_only_keeps_pose_witness :
    demoModel.m_bIsDynamic = true ∧
      ((MoveTo demoConv demoEngine demoModel demoBlocked demoIdentityQuat true).2.body.getGlobalPose
          = demoModel.body.getGlobalPose ∧
        (MoveTo demoConv demoEngine demoModel demoBlocked demoIdentityQuat true).2.OriginAnchor
          = demoModel.OriginAnchor) :=
  ⟨by decide,
    MoveTo_check_only_keeps_pose demoConv demoEngine demoModel demoBlocked demoIdentityQuat
      (by decide)⟩

/-- C2. On a dynamic body, when `MoveTo(p, o, false)` returns false the
engine-side global pose after the call is exactly the transform read by
`getGlobalPose` before the call. -/
theorem MoveTo_false_rolls_back {R F G : Type} (cv : CConversions R F)
    (eng : CPhysXEngine F G) (m : CPhysXSingleBodyObjectModel R F G) (p : CVector3 R)
    (o : CQuaternion R) (hdyn : m.m_bIsDynamic = true)
    (hret : (MoveTo cv eng m p o false).1 = false) :
    (MoveTo cv eng m p o false).2.body.getGlobalPose = m.body.getGlobalPose := by
  rw [MoveTo_of_dynamic cv eng m p o false hdyn] at hret ⊢
  simp only [Bool.not_eq_false_eq_eq_true] at hret
  simp only [hret, Bool.or_true, if_true]
  simp [PxRigidActor.getGlobalPose, PxRigidActor.setRigidBodyFlagKinematic]

/-- Witness for C2: the move into the obstacle is refused and rolled back. -/
theorem MoveTo_false_rolls_back_witness :
    demoModel.m_bIsDynamic = true ∧
      (MoveTo demoConv demoEngine demoModel demoBlocked demoIdentityQuat false).1 = false ∧
      (MoveTo demoConv demoEngine demoModel demoBlocked demoIdentityQuat false).2.body.getGlobalPose
        = demoModel.body.getGlobalPose :=
  ⟨by decide, by decide,
    MoveTo_false_rolls_back demoConv demoEngine demoModel demoBlocked demoIdentityQuat
      (by decide) (by decide)⟩

/-- C3. On a dynamic body, when `MoveTo(p, o, false)` returns true the
engine-side pose is the candidate `(p, o)` converted to the engine
representation, and the origin anchor has been refreshed by the registered
`UpdateOriginAnchor` method from that pose; as the conversion back returns `p`
and `o`, the anchor's position and orientation are `p` and `o`. -/
theorem MoveTo_true_commits {R F G : Type} (cv : CConversions R F)
    (eng : CPhysXEngine F G) (m : CPhysXSingleBodyObjectModel R F G) (p : CVector3 R)
    (o : CQuaternion R) (hdyn : m.m_bIsDynamic = true)
    (hret : (MoveTo cv eng m p o false).1 = true)
    (hp : cv.PxVec3ToCVector3 (cv.CVector3ToPxVec3 p) = p)
    (ho : cv.PxQuatToCQuaternion (cv.CQuaternionToPxQuat o) = o) :
    (MoveTo cv eng m p o false).2.body.getGlobalPose = candidatePose cv p o ∧
      (MoveTo cv eng m p o false).2.OriginAnchor
        = UpdateOriginAnchor cv (MoveTo cv eng m p o false).2 m.OriginAnchor ∧
      (MoveTo cv eng m p o false).2.OriginAnchor.Position = p ∧
      (MoveTo cv eng m p o false).2.OriginAnchor.Orientation = o := by
  rw [MoveTo_of_dynamic cv eng m p o false hdyn] at hret ⊢
  simp only [Bool.not_eq_true_eq_eq_false] at hret
  simp only [hret, Bool.or_self, Bool.false_eq_true, if_false]
  simp [hp, ho, UpdateOriginAnchor, candidatePose, PxRigidActor.getGlobalPose,
    PxRigidActor.setRigidBodyFlagKinematic, PxRigidActor.setGlobalPose]

/-- Witness for C3: the move to the free position is accepted and committed. -/
theorem MoveTo_true_commits_witness :
    demoModel.m_bIsDynamic = true ∧
      (MoveTo demoConv demoEngine demoModel demoFree demoIdentityQuat false).1 = true ∧
      ((MoveTo demoConv demoEngine demoModel demoFree demoIdentityQuat false).2.body.getGlobalPose
          = candidatePose demoConv demoFree demoIdentityQuat ∧
        (MoveTo demoConv demoEngine demoModel demoFree demoIdentityQuat false).2.OriginAnchor
          = UpdateOriginAnchor demoConv
              (MoveTo demoConv demoEngine demoModel demoFree demoIdentityQuat false).2
              demoModel.OriginAnchor ∧
        (MoveTo demoConv demoEngine demoModel demoFree demoIdentityQuat false).2.OriginAnchor.Position
          = demoFree ∧
        (MoveTo demoConv demoEngine demoModel demoFree demoIdentityQuat
          false).2.OriginAnchor.Orientation = demoIdentityQuat) :=
  ⟨by decide, by decide,
    MoveTo_true_commits demoConv demoEngine demoModel demoFree demoIdentityQuat
      (by decide) (by decide) (by decide) (by decide)⟩

/-- C4. On a static body `MoveTo` returns false and leaves the whole state as
it was, for either value of the check-only flag; `Reset` and
`UpdateEntityStatus` leave the whole state as it was too. -/
theorem static_body_is_untouched {R F G : Type} [Zero F] (cv : CConversions R F)
    (eng : CPhysXEngine F G) (m : CPhysXSingleBodyObjectModel R F G) (p : CVector3 R)
    (o : CQuaternion R) (c : Bool) (hst : m.m_bIsDynamic = false) :
    MoveTo cv eng m p o c = (false, m) ∧ Reset cv m = m ∧ UpdateEntityStatus cv m = m := by
  refine ⟨MoveTo_of_static cv eng m p o c hst, ?_, ?_⟩
  · simp [Reset, hst]
  · simp [UpdateEntityStatus, hst]

/-- Witness for C4: a static body asked to move to a free position. -/
theorem static_body_is_untouched_witness :
    demoStaticModel.m_bIsDynamic = false ∧
      (MoveTo demoConv demoEngine demoStaticModel demoFree demoIdentityQuat false
          = (false, demoStaticModel) ∧
        Reset demoConv demoStaticModel = demoStaticModel ∧
        UpdateEntityStatus demoConv demoStaticModel = demoStaticModel) :=
  ⟨by decide,
    static_body_is_untouched demoConv demoEngine demoStaticModel demoFree demoIdentityQuat false
      (by decide)⟩

/-- C5. On a dynamic body, after `MoveTo` the kinematic flag is off whatever it
was before, and the engine-side pose is the candidate when the call was not
check-only and found no collision, and the pre-call pose in every other case. -/
theorem MoveTo_leaves_dynamic_mode {R F G : Type} (cv : CConversions R F)
    (eng : CPhysXEngine F G) (m : CPhysXSingleBodyObjectModel R F G) (p : CVector3 R)
    (o : CQuaternion R) (c : Bool) (hdyn : m.m_bIsDynamic = true) :
    (MoveTo cv eng m p o c).2.body.kinematic = false ∧
      (MoveTo cv eng m p o c).2.body.getGlobalPose =
        if c = false ∧ IsCollidingWithSomething eng (placedAt m (candidatePose cv p o)) = false
        then candidatePose cv p o
        else m.body.getGlobalPose := by
  rw [MoveTo_of_dynamic cv eng m p o c hdyn]
  cases hcol : IsCollidingWithSomething eng (placedAt m (candidatePose cv p o)) <;>
    cases c <;>
    simp [PxRigidActor.getGlobalPose, PxRigidActor.setRigidBodyFlagKinematic,
      PxRigidActor.setGlobalPose]

/-- Witness for C5: the demo body starts in kinematic mode and leaves it. -/
theorem MoveTo_leaves_dynamic_mode_witness :
    demoModel.m_bIsDynamic = true ∧ demoModel.body.kinematic = true ∧
      ((MoveTo demoConv demoEngine demoModel demoFree demoIdentityQuat false).2.body.kinematic
          = false ∧
        (MoveTo demoConv demoEngine demoModel demoFree demoIdentityQuat false).2.body.getGlobalPose =
          if false = false ∧
              IsCollidingWithSomething demoEngine
                (placedAt demoModel (candidatePose demoConv demoFree demoIdentityQuat)) = false
          then candidatePose demoConv demoFree demoIdentityQuat
          else demoModel.body.getGlobalPose) :=
  ⟨by decide, by decide,
    MoveTo_leaves_dynamic_mode demoConv demoEngine demoModel demoFree demoIdentityQuat false
      (by decide)⟩


/-- C6, counterexample. A check-only probe of a free position on a dynamic body
returns true, not false: the pre-check finds no overlap at the candidate and the
returned value is the negation of the pre-check. -/
theorem MoveTo_check_only_free_returns_true :
    demoModel.m_bIsDynamic = true ∧
      IsCollidingWithSomething demoEngine
        (placedAt demoModel (candidatePose demoConv demoFree demoIdentityQuat)) = false ∧
      (MoveTo demoConv demoEngine demoModel demoFree demoIdentityQuat true).1 = true ∧
      ¬ (MoveTo demoConv demoEngine demoModel demoFree demoIdentityQuat true).1 = false := by
  decide

/-- C6, amended. On a dynamic body a check-only `MoveTo` rolls the pose back as
a detected collision does: the final state is the initial one with the
kinematic flag off, and when the candidate collides the call gives the same
result and state as the call without check-only.  The returned value is the
negation of the pre-check at the candidate: false when it overlaps something,
true when it overlaps nothing. -/
theorem MoveTo_check_only_rolls_back {R F G : Type} (cv : CConversions R F)
    (eng : CPhysXEngine F G) (m : CPhysXSingleBodyObjectModel R F G) (p : CVector3 R)
    (o : CQuaternion R) (hdyn : m.m_bIsDynamic = true) :
    (MoveTo cv eng m p o true).2 = { m with body := m.body.setRigidBodyFlagKinematic false } ∧
      (IsCollidingWithSomething eng (placedAt m (candidatePose cv p o)) = true →
        MoveTo cv eng m p o true = MoveTo cv eng m p o false) ∧
      (MoveTo cv eng m p o true).1
        = !IsCollidingWithSomething eng (placedAt m (candidatePose cv p o)) := by
  rw [MoveTo_of_dynamic cv eng m p o true hdyn, MoveTo_of_dynamic cv eng m p o false hdyn]
  refine ⟨by simp, ?_, rfl⟩
  intro hcol
  simp only [hcol, Bool.or_true]

/-- Witness for C6 (amended): a probe of the blocked position behaves as the
refused move does. -/
theorem MoveTo_check_only_rolls_back_witness :
    demoModel.m_bIsDynamic = true ∧
      IsCollidingWithSomething demoEngine
        (placedAt demoModel (candidatePose demoConv demoBlocked demoIdentityQuat)) = true ∧
      MoveTo demoConv demoEngine demoModel demoBlocked demoIdentityQuat true
        = MoveTo demoConv demoEngine demoModel demoBlocked demoIdentityQuat false ∧
      (MoveTo demoConv demoEngine demoModel demoBlocked demoIdentityQuat true).2
        = { demoModel with body := demoModel.body.setRigidBodyFlagKinematic false } :=
  ⟨by decide, by decide,
    (MoveTo_check_only_rolls_back demoConv demoEngine demoModel demoBlocked demoIdentityQuat
      (by decide)).2.1 (by decide),
    (MoveTo_check_only_rolls_back demoConv demoEngine demoModel demoBlocked demoIdentityQuat
      (by decide)).1⟩

/-- C7. On a dynamic body `MoveTo` returns true exactly when the collision
pre-check, run with the body placed at the candidate pose, reports no overlap;
the returned value is the same for both values of the check-only flag. -/
theorem MoveTo_returns_no_collision {R F G : Type} (cv : CConversions R F)
    (eng : CPhysXEngine F G) (m : CPhysXSingleBodyObjectModel R F G) (p : CVector3 R)
    (o : CQuaternion R) (c : Bool) (hdyn : m.m_bIsDynamic = true) :
    ((MoveTo cv eng m p o c).1 = true ↔
        IsCollidingWithSomething eng (placedAt m (candidatePose cv p o)) = false) ∧
      (MoveTo cv eng m p o true).1 = (MoveTo cv eng m p o false).1 := by
  rw [MoveTo_of_dynamic cv eng m p o c hdyn, MoveTo_of_dynamic cv eng m p o true hdyn,
    MoveTo_of_dynamic cv eng m p o false hdyn]
  simp

/-- Witness for C7: the free position is reported free in probe mode too. -/
theorem MoveTo_returns_no_collision_witness :
    demoModel.m_bIsDynamic = true ∧
      (((MoveTo demoConv demoEngine demoModel demoFree demoIdentityQuat true).1 = true ↔
          IsCollidingWithSomething demoEngine
            (placedAt demoModel (candidatePose demoConv demoFree demoIdentityQuat)) = false) ∧
        (MoveTo demoConv demoEngine demoModel demoFree demoIdentityQuat true).1
          = (MoveTo demoConv demoEngine demoModel demoFree demoIdentityQuat false).1) :=
  ⟨by decide,
    MoveTo_returns_no_collision demoConv demoEngine demoModel demoFree demoIdentityQuat true
      (by decide)⟩

/-! ## Collision pre-check -/

/-- C8. `IsCollidingWithSomething` is true exactly when some shape of the body
has a positive any-hit overlap query, issued with that shape's geometry at the
body's current pose under the filter built by the function; that filter drops
the ground shape and each of the body's shapes.  Hence when every scene shape
touched by the body is the ground or one of the body's own shapes the result is
false, and a body without shapes is never colliding. -/
theorem IsCollidingWithSomething_spec {R F G : Type} (eng : CPhysXEngine F G)
    (m : CPhysXSingleBodyObjectModel R F G) :
    (IsCollidingWithSomething eng m = true ↔
        ∃ s ∈ m.body.getShapes,
          sceneOverlap eng (sceneShapes eng m) s.geometry m.body.getGlobalPose
            (buildIgnoreShapes eng m) = true) ∧
      (buildIgnoreShapes eng m).preFilter eng.groundShape = false ∧
      (∀ s ∈ m.body.getShapes, (buildIgnoreShapes eng m).preFilter s = false) ∧
      ((∀ sp ∈ sceneShapes eng m, ∀ s ∈ m.body.getShapes,
            eng.intersects s.geometry m.body.getGlobalPose sp.1 sp.2 = true →
              sp.1.id = eng.groundShape.id ∨ ∃ t ∈ m.body.getShapes, t.id = sp.1.id) →
          IsCollidingWithSomething eng m = false) ∧
      (m.body.getShapes = [] → IsCollidingWithSomething eng m = false) := by
  have hiff : IsCollidingWithSomething eng m = true ↔
      ∃ s ∈ m.body.getShapes,
        sceneOverlap eng (sceneShapes eng m) s.geometry m.body.getGlobalPose
          (buildIgnoreShapes eng m) = true := by
    unfold IsCollidingWithSomething
    exact overlapLoop_eq_true_iff eng _ _ _ _
  refine ⟨hiff, ?_, ?_, ?_, ?_⟩
  · exact (buildIgnoreShapes_preFilter eng m eng.groundShape).2 (Or.inl rfl)
  · intro s hs
    exact (buildIgnoreShapes_preFilter eng m s).2 (Or.inr ⟨s, hs, rfl⟩)
  · intro hall
    rw [← Bool.not_eq_true, hiff]
    rintro ⟨s, hs, hov⟩
    unfold sceneOverlap at hov
    rw [List.any_eq_true] at hov
    obtain ⟨sp, hsp, hhit⟩ := hov
    rw [Bool.and_eq_true] at hhit
    have hign := (buildIgnoreShapes_preFilter eng m sp.1).2 (hall sp hsp s hs hhit.2)
    rw [hign] at hhit
    exact Bool.false_ne_true hhit.1
  · intro hnil
    rw [← Bool.not_eq_true, hiff, hnil]
    simp

/-- Witness for C8: the demo body at the origin touches the ground and its own
shape only, and is not colliding. -/
theorem IsCollidingWithSomething_spec_witness :
    (∃ sp ∈ sceneShapes demoEngine demoModel, ∃ s ∈ demoModel.body.getShapes,
        demoEngine.intersects s.geometry demoModel.body.getGlobalPose sp.1 sp.2 = true) ∧
      IsCollidingWithSomething demoEngine demoModel = false :=
  ⟨by decide, (IsCollidingWithSomething_spec demoEngine demoModel).2.2.2.1 (by decide)⟩


/-! ## Reset and anchor synchronisation -/

/-- C9. `Reset` is idempotent on dynamic bodies: a second `Reset` right after
the first gives the state of the first, and after each of the two calls the
body's pose is the origin anchor's pose converted to the engine representation,
the kinematic flag is off and the accumulated force and torque are zero. -/
theorem Reset_idempotent {R F G : Type} [Zero F] (cv : CConversions R F)
    (m : CPhysXSingleBodyObjectModel R F G) (hdyn : m.m_bIsDynamic = true) :
    Reset cv (Reset cv m) = Reset cv m ∧
      ((Reset cv m).body.getGlobalPose
          = candidatePose cv (Reset cv m).OriginAnchor.Position
              (Reset cv m).OriginAnchor.Orientation ∧
        (Reset cv m).body.kinematic = false ∧
        (Reset cv m).body.force = ⟨0, 0, 0⟩ ∧
        (Reset cv m).body.torque = ⟨0, 0, 0⟩) ∧
      ((Reset cv (Reset cv m)).body.getGlobalPose
          = candidatePose cv (Reset cv (Reset cv m)).OriginAnchor.Position
              (Reset cv (Reset cv m)).OriginAnchor.Orientation ∧
        (Reset cv (Reset cv m)).body.kinematic = false ∧
        (Reset cv (Reset cv m)).body.force = ⟨0, 0, 0⟩ ∧
        (Reset cv (Reset cv m)).body.torque = ⟨0, 0, 0⟩) := by
  have h1 : (Reset cv m).m_bIsDynamic = true := by
    rw [Reset_of_dynamic cv m hdyn]
    exact hdyn
  have h2 : Reset cv (Reset cv m) = Reset cv m := by
    rw [Reset_of_dynamic cv (Reset cv m) h1, Reset_of_dynamic cv m hdyn]
  have h3 : (Reset cv m).body.getGlobalPose
        = candidatePose cv (Reset cv m).OriginAnchor.Position
            (Reset cv m).OriginAnchor.Orientation ∧
      (Reset cv m).body.kinematic = false ∧
      (Reset cv m).body.force = ⟨0, 0, 0⟩ ∧
      (Reset cv m).body.torque = ⟨0, 0, 0⟩ := by
    rw [Reset_of_dynamic cv m hdyn]
    simp [PxRigidActor.getGlobalPose]
  refine ⟨h2, h3, ?_⟩
  rw [h2]
  exact h3

/-- Witness for C9: the demo body, left kinematic with residual force and
torque away from its anchor. -/
theorem Reset_idempotent_witness :
    demoModel.m_bIsDynamic = true ∧ Reset demoConv demoModel ≠ demoModel ∧
      Reset demoConv (Reset demoConv demoModel) = Reset demoConv demoModel ∧
      (Reset demoConv demoModel).body.force = ⟨0, 0, 0⟩ :=
  ⟨by decide, by decide, (Reset_idempotent demoConv demoModel (by decide)).1,
    (Reset_idempotent demoConv demoModel (by decide)).2.1.2.2.1⟩

/-- C10. Anchor and body agree: on a dynamic body, after an accepted
`MoveTo(p, o, false)`, after a `Reset` (the conversion to the engine and back
returning the anchor's pose), and after a step-driven `UpdateOriginAnchor`, the
origin anchor's position and orientation are the body's engine-side global pose
passed through the engine-to-simulation conversion.  `UpdateOriginAnchor`
overwrites both fields of the anchor it is given with the body's current pose
and leaves the body as it was. -/
theorem anchor_agrees_with_body {R F G : Type} [Zero F] (cv : CConversions R F)
    (eng : CPhysXEngine F G) (m : CPhysXSingleBodyObjectModel R F G) (p : CVector3 R)
    (o : CQuaternion R) (hdyn : m.m_bIsDynamic = true) :
    ((MoveTo cv eng m p o false).1 = true →
        (MoveTo cv eng m p o false).2.OriginAnchor.Position
            = cv.PxVec3ToCVector3 (MoveTo cv eng m p o false).2.body.getGlobalPose.p ∧
          (MoveTo cv eng m p o false).2.OriginAnchor.Orientation
            = cv.PxQuatToCQuaternion (MoveTo cv eng m p o false).2.body.getGlobalPose.q) ∧
      (cv.PxVec3ToCVector3 (cv.CVector3ToPxVec3 m.OriginAnchor.Position)
            = m.OriginAnchor.Position →
        cv.PxQuatToCQuaternion (cv.CQuaternionToPxQuat m.OriginAnchor.Orientation)
            = m.OriginAnchor.Orientation →
        (Reset cv m).OriginAnchor.Position
            = cv.PxVec3ToCVector3 (Reset cv m).body.getGlobalPose.p ∧
          (Reset cv m).OriginAnchor.Orientation
            = cv.PxQuatToCQuaternion (Reset cv m).body.getGlobalPose.q) ∧
      ((stepUpdateOriginAnchor cv m).OriginAnchor.Position
            = cv.PxVec3ToCVector3 (stepUpdateOriginAnchor cv m).body.getGlobalPose.p ∧
          (stepUpdateOriginAnchor cv m).OriginAnchor.Orientation
            = cv.PxQuatToCQuaternion (stepUpdateOriginAnchor cv m).body.getGlobalPose.q) ∧
      (∀ s_anchor : SAnchor R,
        UpdateOriginAnchor cv m s_anchor
          = ⟨cv.PxVec3ToCVector3 m.body.getGlobalPose.p,
              cv.PxQuatToCQuaternion m.body.getGlobalPose.q⟩) ∧
      (stepUpdateOriginAnchor cv m).body = m.body := by
  refine ⟨?_, ?_, ?_, ?_, ?_⟩
  · intro hret
    rw [MoveTo_of_dynamic cv eng m p o false hdyn] at hret ⊢
    simp only [Bool.not_eq_true_eq_eq_false] at hret
    simp only [hret, Bool.or_self, Bool.false_eq_true, if_false]
    simp [candidatePose, PxRigidActor.getGlobalPose, PxRigidActor.setRigidBodyFlagKinematic,
      PxRigidActor.setGlobalPose]
  · intro hp ho
    rw [Reset_of_dynamic cv m hdyn]
    simp [candidatePose, PxRigidActor.getGlobalPose, hp, ho]
  · simp [stepUpdateOriginAnchor, UpdateOriginAnchor]
  · intro s_anchor
    simp [UpdateOriginAnchor]
  · simp [stepUpdateOriginAnchor]

/-- Witness for C10: the demo body after an accepted move, after a reset and
after a step-driven update. -/
theorem anchor_agrees_with_body_witness :
    demoModel.m_bIsDynamic = true ∧
      (MoveTo demoConv demoEngine demoModel demoFree demoIdentityQuat false).1 = true ∧
      ((MoveTo demoConv demoEngine demoModel demoFree demoIdentityQuat false).2.OriginAnchor.Position
          = demoConv.PxVec3ToCVector3
              (MoveTo demoConv demoEngine demoModel demoFree demoIdentityQuat
                false).2.body.getGlobalPose.p ∧
        (MoveTo demoConv demoEngine demoModel demoFree demoIdentityQuat
            false).2.OriginAnchor.Orientation
          = demoConv.PxQuatToCQuaternion
              (MoveTo demoConv demoEngine demoModel demoFree demoIdentityQuat
                false).2.body.getGlobalPose.q) ∧
      ((Reset demoConv demoModel).OriginAnchor.Position
          = demoConv.PxVec3ToCVector3 (Reset demoConv demoModel).body.getGlobalPose.p ∧
        (Reset demoConv demoModel).OriginAnchor.Orientation
          = demoConv.PxQuatToCQuaternion (Reset demoConv demoModel).body.getGlobalPose.q) ∧
      (stepUpdateOriginAnchor demoConv demoModel).OriginAnchor ≠ demoModel.OriginAnchor :=
  ⟨by decide, by decide,
    (anchor_agrees_with_body demoConv demoEngine demoModel demoFree demoIdentityQuat
      (by decide)).1 (by decide),
    (anchor_agrees_with_body demoConv demoEngine demoModel demoFree demoIdentityQuat
      (by decide)).2.1 (by decide) (by decide),
    by decide⟩

end Argos
